import Mathlib

/-!
Verification of the PowerToys self-updater (`src/Update/PowerToys.Update.cpp`)
against its natural-language specification.

The C++ program is shallowly embedded below.  Pure control flow is translated
directly; external effects (network query, artifact download, file system,
process launch, process wait) are supplied by explicit oracle values so that
every code path of the updater is reachable in the model.  State that the
program persists (`UpdateState`) and the pending-updates directory are threaded
through an explicit `World` record.

Collaborator code that lives outside the given source file
(`updateState.h`, `updating.h`, `UpdateUtils.h`) is modelled from the
specification; every such definition carries a doc comment saying so.
-/

namespace PTUpdate

/-- Modelled from the spec: the persisted update record (`UpdateState` of
`common/updating/updateState.h`, not in src).  `state` is stored as a raw
numeric code so that corrupted / unexpected persisted values ("any
other/unexpected value") are representable, as §4.3 step 5 of the spec
requires.  `downloadedInstallerFilename` is a wide string in C++, empty when
unset. -/
structure UpdateState where
  state : Nat
  githubUpdateLastCheckedDate : Option Nat
  downloadedInstallerFilename : String
deriving Repr, DecidableEq

/-- Modelled from the spec: the `upToDate` state code. -/
def UpdateState.upToDate : Nat := 0

/-- Modelled from the spec: the `errorDownloading` state code. -/
def UpdateState.errorDownloading : Nat := 1

/-- Modelled from the spec: the `readyToDownload` state code. -/
def UpdateState.readyToDownload : Nat := 2

/-- Modelled from the spec: the `readyToInstall` state code. -/
def UpdateState.readyToInstall : Nat := 3

/-- Modelled from the spec: the default-initialized record (`state = {}` /
first-read default, §4.1: readyToDownload-equivalent initial, no timestamp,
no filename). -/
def UpdateState.reset : UpdateState :=
  { state := UpdateState.readyToDownload
    githubUpdateLastCheckedDate := none
    downloadedInstallerFilename := "" }

/-- Modelled from the spec: the resolver's "new version available" payload
(`new_version_download_info`): a download URL and the expected local
artifact filename. -/
inductive VersionInfo where
  | versionUpToDate
  | newVersionDownloadInfo (downloadUrl : String) (installerFilename : String)
deriving Repr, DecidableEq

/-- The distinct failure paths of `ObtainInstaller`, one per `Logger::error`
exit: no version info (network), already up to date, download failed,
recorded installer file missing, unexpected persisted state. -/
inductive FailReason where
  | networkFailure
  | alreadyUpToDate
  | downloadFailure
  | missingFile
  | invalidState
deriving Repr, DecidableEq

/-- Result of `ObtainInstaller`: the C++ returns `optional<fs::path>` plus an
`isUpToDate` out-parameter; the `notAvailable` constructor records which of
the five failure exits was taken (`alreadyUpToDate` is exactly the path that
sets `isUpToDate = true`). -/
inductive ObtainResult where
  | ok (path : String)
  | notAvailable (reason : FailReason)
deriving Repr, DecidableEq

/-- The world visible to the updater across one run: the persisted record,
the filenames present in the pending-updates directory, a count of download
attempts (instrumentation for the idempotence property), and the temp
directory contents (path ↦ file contents) used by self-relocation. -/
structure World where
  record : UpdateState
  pendingFiles : List String
  downloadCount : Nat
  tempFiles : List (String × String)
deriving Repr, DecidableEq

/-- Modelled from the spec: `get_pending_updates_path()` — the well-known
pending-updates directory (glossary). -/
def pendingUpdatesPath : String := "PendingUpdates"

/-- Path concatenation, modelling `fs::path::operator/`. -/
def pathJoin (a b : String) : String := a ++ "/" ++ b

/-- Modelled from the spec: `updating::cleanup_updates()` (§4.3 step 5) —
"unconditionally clean up stale previously-downloaded artifacts that do not
match the current target filename".  Keeps exactly the files equal to the
current target filename. -/
def cleanup_updates (target : String) (files : List String) : List String :=
  files.filter (fun f => f == target)

/-- Modelled from the spec: `download_new_version` — downloads the artifact
into the pending-updates directory under the target filename; success or
failure comes from the `downloadOk` oracle. -/
def download_new_version (target : String) (downloadOk : Bool)
    (files : List String) : Option String × List String :=
  if downloadOk then (some (pathJoin pendingUpdatesPath target), target :: files)
  else (none, files)

/-- `ObtainInstaller` (lines 44–89 of the source): read state, query the
resolver (`versionInfo`, `none` = query failed), on a new version run cleanup
then branch on the persisted state code. -/
def obtainInstaller (versionInfo : Option VersionInfo) (downloadOk : Bool)
    (w : World) : ObtainResult × World :=
  match versionInfo with
  | none => (ObtainResult.notAvailable FailReason.networkFailure, w)
  | some VersionInfo.versionUpToDate =>
      (ObtainResult.notAvailable FailReason.alreadyUpToDate, w)
  | some (VersionInfo.newVersionDownloadInfo _downloadUrl target) =>
      let cleaned := cleanup_updates target w.pendingFiles
      let w1 : World := { w with pendingFiles := cleaned }
      if w.record.state = UpdateState.readyToDownload ∨
          w.record.state = UpdateState.errorDownloading then
        let w2 : World := { w1 with downloadCount := w1.downloadCount + 1 }
        match download_new_version target downloadOk w2.pendingFiles with
        | (none, files) =>
            (ObtainResult.notAvailable FailReason.downloadFailure,
             { w2 with pendingFiles := files })
        | (some p, files) => (ObtainResult.ok p, { w2 with pendingFiles := files })
      else if w.record.state = UpdateState.readyToInstall then
        let installer := pathJoin pendingUpdatesPath
          w.record.downloadedInstallerFilename
        if w1.pendingFiles.contains w.record.downloadedInstallerFilename then
          (ObtainResult.ok installer, w1)
        else (ObtainResult.notAvailable FailReason.missingFile, w1)
      else (ObtainResult.notAvailable FailReason.invalidState, w1)

/-- `UpdateState::store`: read-modify-write of the persisted record with a
mutator applied to a freshly read copy. -/
def UpdateState.store (mutator : UpdateState → UpdateState) (w : World) : World :=
  { w with record := mutator w.record }

/-- The mutator stored by `WinMain`'s Stage-1 failure branch (lines 181–185):
reset the record, set a fresh timestamp, set `upToDate` or `errorDownloading`
according to the captured `isUpToDate` flag. -/
def stage1FailMutator (now : Nat) (isUpToDate : Bool) (_prev : UpdateState) :
    UpdateState :=
  let s := UpdateState.reset
  let s := { s with githubUpdateLastCheckedDate := some now }
  { s with state := if isUpToDate then UpdateState.upToDate
                    else UpdateState.errorDownloading }

/-- The mutator stored by `InstallNewVersionStage2` on success (lines 151–155):
reset, fresh timestamp, `upToDate`. -/
def stage2SuccessMutator (now : Nat) (_prev : UpdateState) : UpdateState :=
  let s := UpdateState.reset
  let s := { s with githubUpdateLastCheckedDate := some now }
  { s with state := UpdateState.upToDate }

/-- The mutator stored by `WinMain`'s Stage-2 failure branch (lines 193–197):
reset, fresh timestamp, `errorDownloading`. -/
def stage2FailMutator (now : Nat) (_prev : UpdateState) : UpdateState :=
  let s := UpdateState.reset
  let s := { s with githubUpdateLastCheckedDate := some now }
  { s with state := UpdateState.errorDownloading }

/-- Destination of the self-relocation (line 34):
`fs::temp_directory_path() / "PowerToys.Update.exe"`. -/
def updateDstPath (tempDir : String) : String :=
  pathJoin tempDir "PowerToys.Update.exe"

/-- Associative-store write modelling `fs::copy_file` with
`copy_options::overwrite_existing`: any existing entry at the destination
path is replaced. -/
def setFile (store : List (String × String)) (p c : String) :
    List (String × String) :=
  (p, c) :: store.filter (fun e => !(e.1 == p))

/-- `CopySelfToTempDir` (lines 31–42): copy the running binary
(`selfBinary`, the contents returned by `get_module_filename`) to the fixed
destination in the temp directory, overwriting any existing file; the
`copyOk` oracle decides whether `fs::copy_file` reports an error. -/
def CopySelfToTempDir (tempDir selfBinary : String) (copyOk : Bool)
    (store : List (String × String)) : Option String × List (String × String) :=
  let dst := updateDstPath tempDir
  if copyOk then (some dst, setFile store dst selfBinary)
  else (none, store)

/-- Exit behaviour of the process launched by Stage 2 for a self-contained
executable: `exitTime` is the time in milliseconds until it exits (`none` =
it never exits), `exitCode` its eventual exit code. -/
structure ProcessBehavior where
  exitTime : Option Nat
  exitCode : Nat
deriving Repr, DecidableEq

/-- The exit code observed by `GetExitCodeProcess` after
`WaitForSingleObject(h, timeoutMs)` (lines 137–140): the real exit code when
the process has exited within the wait, otherwise `STILL_ACTIVE`. -/
def STILL_ACTIVE : Nat := 259

/-- The bounded wait used by Stage 2 (line 138). -/
def STAGE2_WAIT_MS : Nat := 60000

/-- Observed exit code after a bounded wait: the process's code if it exited
within `timeoutMs`, else `STILL_ACTIVE`. -/
def observedExitCode (timeoutMs : Nat) (p : ProcessBehavior) : Nat :=
  match p.exitTime with
  | some t => if t ≤ timeoutMs then p.exitCode else STILL_ACTIVE
  | none => STILL_ACTIVE

/-- All external outcomes of one updater run: resolver answer, download
success, self-copy success, the two `ShellExecuteExW` launches, the launched
installer process's behaviour, and the `MsiInstallProductW` result; plus the
ambient temp directory and the updater binary's own contents. -/
structure RunOracle where
  versionInfo : Option VersionInfo
  downloadOk : Bool
  copyOk : Bool
  launchOk : Bool
  stage2LaunchOk : Bool
  proc : ProcessBehavior
  msiOk : Bool
  tempDir : String
  selfBinary : String
deriving Repr, DecidableEq

/-- `InstallNewVersionStage1` (lines 91–114): relocate self (fatal on
failure), signal the main window to close (no modelled effect), launch the
relocated copy as Stage 2. -/
def InstallNewVersionStage1 (o : RunOracle) (_installer : String) (w : World) :
    Bool × World :=
  match CopySelfToTempDir o.tempDir o.selfBinary o.copyOk w.tempFiles with
  | (none, store) => (false, { w with tempFiles := store })
  | (some _tempExe, store) => (o.launchOk, { w with tempFiles := store })

/-- `std::transform(..., ::towlower)` over the whole path (line 118),
character by character. -/
def strToLower (s : String) : String := String.mk (s.data.map Char.toLower)

/-- `std::wstring::ends_with` (line 121), as a suffix test on the character
list. -/
def strEndsWith (s suffix : String) : Bool := suffix.data.isSuffixOf s.data

/-- `InstallNewVersionStage2` (lines 116–158): lower-case the path, dispatch
on the `.msi` suffix; for an executable, launch it, wait up to 60 s and
require exit code zero.  On success persist `upToDate`; on failure return
`false` without touching the persisted record. -/
def InstallNewVersionStage2 (o : RunOracle) (now : Nat) (installerPath : String)
    (w : World) : Bool × World :=
  let p := strToLower installerPath
  let success :=
    if strEndsWith p ".msi" then o.msiOk
    else if o.stage2LaunchOk then observedExitCode STAGE2_WAIT_MS o.proc == 0
    else false
  if success then (true, UpdateState.store (stage2SuccessMutator now) w)
  else (false, w)

/-- `WinMain`'s Stage-1 branch (lines 175–188): obtain an installer; when
either acquisition or the Stage-1 launch fails, persist the terminal state
(`upToDate` exactly when the acquirer reported "already up to date").  The
second component is the installer path handed to the spawned Stage-2 process
(`none` when no Stage 2 was launched). -/
def runStage1 (o : RunOracle) (now : Nat) (w : World) : World × Option String :=
  match obtainInstaller o.versionInfo o.downloadOk w with
  | (ObtainResult.ok installer, w1) =>
      match InstallNewVersionStage1 o installer w1 with
      | (true, w2) => (w2, some installer)
      | (false, w2) => (UpdateState.store (stage1FailMutator now false) w2, none)
  | (ObtainResult.notAvailable reason, w1) =>
      (UpdateState.store
        (stage1FailMutator now (reason == FailReason.alreadyUpToDate)) w1, none)

/-- `WinMain`'s Stage-2 branch (lines 189–199): run the installer; on failure
persist `errorDownloading`; exit code 0 either way. -/
def runStage2 (o : RunOracle) (now : Nat) (installerPath : String) (w : World) :
    Nat × World :=
  match InstallNewVersionStage2 o now installerPath w with
  | (true, w1) => (0, w1)
  | (false, w1) => (0, UpdateState.store (stage2FailMutator now) w1)

/-- Modelled from the spec: the Stage-1 mode argument (`cmdArg` constants of
`UpdateUtils.h`, not in src). -/
def UPDATE_NOW_LAUNCH_STAGE1 : String := "-update_now_launch_stage1"

/-- Modelled from the spec: the Stage-2 mode argument. -/
def UPDATE_NOW_LAUNCH_STAGE2 : String := "-update_now_launch_stage2"

/-- `WinMain` (lines 160–204) as a function of the parsed argument vector.
`none` models undefined behaviour: the Stage-2 branch reads `args[2]` without
checking `nArgs ≥ 3` (line 191), an out-of-bounds access when the installer
path argument is missing.  Otherwise the result is the process exit code and
the final world. -/
def winMain (o : RunOracle) (now : Nat) (args : List String) (w : World) :
    Option (Nat × World) :=
  if args.length < 2 then some (1, w)
  else
    let action := args.getD 1 ""
    if action = UPDATE_NOW_LAUNCH_STAGE1 then
      some (0, (runStage1 o now w).1)
    else if action = UPDATE_NOW_LAUNCH_STAGE2 then
      match args.get? 2 with
      | none => none
      | some installerPath => some (runStage2 o now installerPath w)
    else some (1, w)

/-- A complete Stage-1-then-Stage-2 run: the Stage-1 invocation at time
`now1`, followed — when Stage 1 spawned a Stage-2 process — by the Stage-2
invocation at time `now2` on the handed-over installer path. -/
def fullRun (o : RunOracle) (now1 now2 : Nat) (w : World) : World :=
  match runStage1 o now1 w with
  | (w1, none) => w1
  | (w1, some installerPath) => (runStage2 o now2 installerPath w1).2

/-! Concrete sample data used by counterexamples and witnesses. -/

/-- A launched installer process that never exits. -/
def sampleProc : ProcessBehavior := { exitTime := none, exitCode := 0 }

/-- Oracle for a run where the resolver reports a new version with target
filename `new.exe` and every external step succeeds. -/
def oracleNewVersion : RunOracle :=
  { versionInfo := some (VersionInfo.newVersionDownloadInfo "https://example/u" "new.exe")
    downloadOk := true, copyOk := true, launchOk := true
    stage2LaunchOk := true, proc := sampleProc, msiOk := true
    tempDir := "Temp", selfBinary := "SELF" }

/-- Oracle for a run whose version query fails. -/
def oracleNoNetwork : RunOracle := { oracleNewVersion with versionInfo := none }

/-- A persisted record in state `readyToInstall` referencing artifact `f`. -/
def recordReadyToInstall (f : String) : UpdateState :=
  { state := UpdateState.readyToInstall
    githubUpdateLastCheckedDate := none
    downloadedInstallerFilename := f }

/-- `readyToInstall` world whose recorded artifact `old.exe` is present but
differs from the current target filename `new.exe`. -/
def worldStale : World :=
  { record := recordReadyToInstall "old.exe", pendingFiles := ["old.exe"]
    downloadCount := 0, tempFiles := [] }

/-- `readyToInstall` world whose recorded artifact `new.exe` is present and
matches the current target filename. -/
def worldMatching : World :=
  { record := recordReadyToInstall "new.exe", pendingFiles := ["new.exe"]
    downloadCount := 0, tempFiles := [] }

/-- `readyToInstall` world whose recorded artifact is absent from the
pending-updates directory. -/
def worldMissing : World :=
  { record := recordReadyToInstall "gone.exe", pendingFiles := []
    downloadCount := 0, tempFiles := [] }

/-- A first-run world: default record, empty pending-updates directory. -/
def worldFresh : World :=
  { record := { state := UpdateState.readyToDownload
                githubUpdateLastCheckedDate := none
                downloadedInstallerFilename := "" }
    pendingFiles := [], downloadCount := 0, tempFiles := [] }

/-! Helper lemmas. -/

/-- A file present in the pending directory and equal to the target survives
cleanup. -/
theorem contains_cleanup_of_mem (files : List String) (target : String)
    (h : target ∈ files) :
    (cleanup_updates target files).contains target = true :=
  List.elem_eq_true_of_mem (List.mem_filter.mpr ⟨h, by simp⟩)

/-- A file absent from the pending directory is still absent after cleanup. -/
theorem contains_cleanup_false_of_not_mem (files : List String) (target f : String)
    (h : f ∉ files) :
    (cleanup_updates target files).contains f = false := by
  cases hc : (cleanup_updates target files).contains f
  · rfl
  · exact absurd (List.mem_of_mem_filter (List.mem_of_elem_eq_true hc)) h

/-- Unfolding of `obtainInstaller` on the `readyToInstall` branch. -/
theorem obtain_readyToInstall_eq (url target : String) (dOk : Bool) (w : World)
    (hstate : w.record.state = UpdateState.readyToInstall) :
    obtainInstaller (some (VersionInfo.newVersionDownloadInfo url target)) dOk w =
      (if (cleanup_updates target w.pendingFiles).contains
            w.record.downloadedInstallerFilename
       then (ObtainResult.ok
              (pathJoin pendingUpdatesPath w.record.downloadedInstallerFilename),
             { w with pendingFiles := cleanup_updates target w.pendingFiles })
       else (ObtainResult.notAvailable FailReason.missingFile,
             { w with pendingFiles := cleanup_updates target w.pendingFiles })) := by
  unfold obtainInstaller
  dsimp only
  rw [hstate]
  rw [if_neg (by decide), if_pos rfl]

/-- Unfolding of `obtainInstaller` on the download branch. -/
theorem obtain_download_eq (url target : String) (dOk : Bool) (w : World)
    (hstate : w.record.state = UpdateState.readyToDownload ∨
      w.record.state = UpdateState.errorDownloading) :
    obtainInstaller (some (VersionInfo.newVersionDownloadInfo url target)) dOk w =
      (if dOk then
        (ObtainResult.ok (pathJoin pendingUpdatesPath target),
         { w with pendingFiles := target :: cleanup_updates target w.pendingFiles,
                  downloadCount := w.downloadCount + 1 })
       else
        (ObtainResult.notAvailable FailReason.downloadFailure,
         { w with pendingFiles := cleanup_updates target w.pendingFiles,
                  downloadCount := w.downloadCount + 1 })) := by
  unfold obtainInstaller
  dsimp only
  rw [if_pos hstate]
  unfold download_new_version
  cases dOk <;> rfl

/-- Unfolding of `obtainInstaller` on the unexpected-state branch. -/
theorem obtain_invalid_eq (url target : String) (dOk : Bool) (w : World)
    (h1 : ¬(w.record.state = UpdateState.readyToDownload ∨
      w.record.state = UpdateState.errorDownloading))
    (h2 : w.record.state ≠ UpdateState.readyToInstall) :
    obtainInstaller (some (VersionInfo.newVersionDownloadInfo url target)) dOk w =
      (ObtainResult.notAvailable FailReason.invalidState,
       { w with pendingFiles := cleanup_updates target w.pendingFiles }) := by
  unfold obtainInstaller
  dsimp only
  rw [if_neg h1, if_neg h2]

/-- `InstallNewVersionStage2` either persists the success record and returns
`true`, or returns `false` leaving the world unchanged. -/
theorem stage2_cases (o : RunOracle) (now : Nat) (p : String) (w : World) :
    InstallNewVersionStage2 o now p w =
      (true, UpdateState.store (stage2SuccessMutator now) w) ∨
    InstallNewVersionStage2 o now p w = (false, w) := by
  simp only [InstallNewVersionStage2]
  split_ifs <;> simp

/-- After a Stage-2 invocation the persisted record was written by exactly one
of the two Stage-2 mutators. -/
theorem runStage2_record (o : RunOracle) (now : Nat) (p : String) (w : World) :
    ((runStage2 o now p w).2).record = stage2SuccessMutator now w.record ∨
    ((runStage2 o now p w).2).record = stage2FailMutator now w.record := by
  unfold runStage2
  rcases stage2_cases o now p w with h | h <;> rw [h]
  · left; rfl
  · right; rfl

/-- A Stage-1 invocation either hands an installer path to a spawned Stage-2
process, or ends in a `stage1FailMutator` store. -/
theorem runStage1_cases (o : RunOracle) (now : Nat) (w : World) :
    (∃ p w2, runStage1 o now w = (w2, some p)) ∨
    (∃ b w2, runStage1 o now w =
      (UpdateState.store (stage1FailMutator now b) w2, none)) := by
  unfold runStage1
  rcases hOb : obtainInstaller o.versionInfo o.downloadOk w with ⟨res, w1⟩
  cases res with
  | ok installer =>
    dsimp only
    rcases hSt : InstallNewVersionStage1 o installer w1 with ⟨b, w2⟩
    cases b
    · right; exact ⟨false, w2, rfl⟩
    · left; exact ⟨installer, w2, rfl⟩
  | notAvailable r =>
    right; exact ⟨(r == FailReason.alreadyUpToDate), w1, rfl⟩

/-- On a non-`.msi` artifact with a successful launch, Stage 2 is decided by
the observed exit code of the bounded 60 s wait. -/
theorem stage2_exe_eq (o : RunOracle) (now : Nat) (p : String) (w : World)
    (hexe : strEndsWith (strToLower p) ".msi" = false)
    (hl : o.stage2LaunchOk = true) :
    InstallNewVersionStage2 o now p w =
      (if observedExitCode STAGE2_WAIT_MS o.proc == 0 then
        (true, UpdateState.store (stage2SuccessMutator now) w)
       else (false, w)) := by
  unfold InstallNewVersionStage2
  dsimp only
  rw [hexe, hl]
  simp

/-! The claims. -/

/-- Claim C1 (confirmed): for every complete Stage-1-then-Stage-2 run, under
every combination of query / download / copy / launch / install outcomes and
from every prior persisted record, the persisted state at the end of the run
is exactly `upToDate` or `errorDownloading` — never `readyToDownload`,
`readyToInstall`, or any other value. -/
theorem claim1_full_run_terminal_state (o : RunOracle) (now1 now2 : Nat)
    (w : World) :
    (fullRun o now1 now2 w).record.state = UpdateState.upToDate ∨
    (fullRun o now1 now2 w).record.state = UpdateState.errorDownloading := by
  unfold fullRun
  rcases h : runStage1 o now1 w with ⟨w1, sp⟩
  cases sp with
  | none =>
    rcases runStage1_cases o now1 w with ⟨p, w2, hEq⟩ | ⟨b, w2, hEq⟩
    · rw [h] at hEq; simp at hEq
    · rw [h] at hEq
      injection hEq with h1 h2
      rw [h1]
      cases b
      · right; rfl
      · left; rfl
  | some p =>
    rcases runStage2_record o now2 p w1 with h2 | h2
    · left; rw [h2]; rfl
    · right; rw [h2]; rfl

/-- Claim C2 (corrected): the claim is false as stated — when the recorded
`readyToInstall` artifact does not match the current target filename, the
cleanup step deletes it.  Concretely: state `readyToInstall` with recorded
artifact `old.exe` present, current target `new.exe`; after the acquirer's
cleanup the recorded artifact is gone. -/
theorem claim2_counterexample :
    worldStale.record.state = UpdateState.readyToInstall ∧
    worldStale.record.downloadedInstallerFilename ∈ worldStale.pendingFiles ∧
    worldStale.record.downloadedInstallerFilename ∉
      ((obtainInstaller (some (VersionInfo.newVersionDownloadInfo
        "https://example/u" "new.exe")) true worldStale).2).pendingFiles := by
  decide

/-- Claim C2 (amended): cleanup deletes only files that do not match the
current target filename; and when the recorded `downloadedInstallerFilename`
equals the current target filename and is present, it survives the whole
acquirer call (whatever the persisted state). -/
theorem claim2_amended_cleanup_spares_matching_target (files : List String)
    (target f url : String) (dOk : Bool) (w : World) :
    (f ∈ files → f ∉ cleanup_updates target files → f ≠ target) ∧
    (w.record.downloadedInstallerFilename = target → target ∈ w.pendingFiles →
      target ∈ ((obtainInstaller (some (VersionInfo.newVersionDownloadInfo url target))
        dOk w).2).pendingFiles) := by
  constructor
  · intro hmem hout heq
    exact hout (List.mem_filter.mpr ⟨hmem, by simp [heq]⟩)
  · intro hname hpresent
    have hclean : target ∈ cleanup_updates target w.pendingFiles :=
      List.mem_filter.mpr ⟨hpresent, by simp⟩
    by_cases hA : w.record.state = UpdateState.readyToDownload ∨
        w.record.state = UpdateState.errorDownloading
    · rw [obtain_download_eq url target dOk w hA]
      cases dOk
      · exact hclean
      · exact List.mem_cons_of_mem _ hclean
    · by_cases hB : w.record.state = UpdateState.readyToInstall
      · rw [obtain_readyToInstall_eq url target dOk w hB]
        by_cases hc : (cleanup_updates target w.pendingFiles).contains
            w.record.downloadedInstallerFilename = true
        · rw [if_pos hc]; exact hclean
        · rw [if_neg hc]; exact hclean
      · rw [obtain_invalid_eq url target dOk w hA hB]
        exact hclean

/-- Witness for the amended C2, at target `new.exe`, stale file `old.exe`
and the matching world. -/
theorem claim2_witness :
    "old.exe" ≠ "new.exe" ∧
    "new.exe" ∈ ((obtainInstaller (some (VersionInfo.newVersionDownloadInfo
      "https://example/u" "new.exe")) true worldMatching).2).pendingFiles :=
  ⟨(claim2_amended_cleanup_spares_matching_target ["old.exe"] "new.exe" "old.exe"
      "https://example/u" true worldMatching).1 (by decide) (by decide),
   (claim2_amended_cleanup_spares_matching_target ["old.exe"] "new.exe" "old.exe"
      "https://example/u" true worldMatching).2 (by decide) (by decide)⟩

/-- Claim C3 (code bug): `WinMain` only checks `nArgs < 2` (line 164); the
Stage-2 branch reads `args[2]` without checking that it exists (line 191),
so a Stage-2 invocation with no installer-path argument is an out-of-bounds
read (modelled `none`), not a guaranteed non-zero exit code.  The remaining
evidence shows the handled cases: well-formed Stage-1 and Stage-2 invocations
exit 0, a missing mode argument and an unknown action exit 1. -/
theorem claim3_arg_handling_evidence :
    winMain oracleNewVersion 7
      ["PowerToys.Update.exe", UPDATE_NOW_LAUNCH_STAGE2] worldFresh = none ∧
    (winMain oracleNewVersion 7
      ["PowerToys.Update.exe", UPDATE_NOW_LAUNCH_STAGE1] worldFresh).map Prod.fst
      = some 0 ∧
    (winMain oracleNewVersion 7
      ["PowerToys.Update.exe", UPDATE_NOW_LAUNCH_STAGE2, "PendingUpdates/new.exe"]
      worldFresh).map Prod.fst = some 0 ∧
    (winMain oracleNewVersion 7 ["PowerToys.Update.exe"] worldFresh).map Prod.fst
      = some 1 ∧
    (winMain oracleNewVersion 7 ["PowerToys.Update.exe", "-bogus"] worldFresh).map
      Prod.fst = some 1 := by
  decide

/-- Claim C4 (corrected): the claim is false — a run whose version query
failed still writes the current time into `githubUpdateLastCheckedDate`
(lines 181–185 run the store with a fresh `timeutil::now()` on the
query-failed path). -/
theorem claim4_counterexample :
    oracleNoNetwork.versionInfo = none ∧
    ((runStage1 oracleNoNetwork 42 worldFresh).1).record.githubUpdateLastCheckedDate
      = some 42 := by
  decide

/-- Claim C4 (amended): every Stage-1 run whose version query failed persists
a record whose `githubUpdateLastCheckedDate` is that run's time (and whose
state is `errorDownloading`). -/
theorem claim4_amended_timestamp_always_written (o : RunOracle) (now : Nat)
    (w : World) (hq : o.versionInfo = none) :
    ((runStage1 o now w).1).record.githubUpdateLastCheckedDate = some now ∧
    ((runStage1 o now w).1).record.state = UpdateState.errorDownloading := by
  unfold runStage1
  rw [hq]
  exact ⟨rfl, rfl⟩

/-- Witness for the amended C4 at the no-network oracle. -/
theorem claim4_witness :
    ((runStage1 oracleNoNetwork 42 worldFresh).1).record.githubUpdateLastCheckedDate
      = some 42 ∧
    ((runStage1 oracleNoNetwork 42 worldFresh).1).record.state =
      UpdateState.errorDownloading :=
  claim4_amended_timestamp_always_written oracleNoNetwork 42 worldFresh rfl

/-- Claim C5 (corrected): the claim is false as stated — with state
`readyToInstall` and the recorded artifact present but not matching the
current target filename, the first acquirer call already fails (cleanup
deleted the artifact) instead of returning the artifact path. -/
theorem claim5_counterexample :
    worldStale.record.state = UpdateState.readyToInstall ∧
    worldStale.record.downloadedInstallerFilename ∈ worldStale.pendingFiles ∧
    (obtainInstaller (some (VersionInfo.newVersionDownloadInfo
      "https://example/u" "new.exe")) true worldStale).1 =
      ObtainResult.notAvailable FailReason.missingFile := by
  decide

/-- Claim C5 (amended): with persisted state `readyToInstall` and an existing
artifact file matching the current target filename, two successive acquirer
calls both return the same artifact path and neither performs a download
(the download count is unchanged). -/
theorem claim5_amended_idempotent_reuse (w : World) (url target : String)
    (dOk : Bool)
    (hstate : w.record.state = UpdateState.readyToInstall)
    (hname : w.record.downloadedInstallerFilename = target)
    (hpresent : target ∈ w.pendingFiles) :
    (obtainInstaller (some (VersionInfo.newVersionDownloadInfo url target)) dOk w).1 =
      ObtainResult.ok (pathJoin pendingUpdatesPath target) ∧
    (obtainInstaller (some (VersionInfo.newVersionDownloadInfo url target)) dOk
      ((obtainInstaller (some (VersionInfo.newVersionDownloadInfo url target))
        dOk w).2)).1 = ObtainResult.ok (pathJoin pendingUpdatesPath target) ∧
    ((obtainInstaller (some (VersionInfo.newVersionDownloadInfo url target)) dOk
      ((obtainInstaller (some (VersionInfo.newVersionDownloadInfo url target))
        dOk w).2)).2).downloadCount = w.downloadCount := by
  have h1 := obtain_readyToInstall_eq url target dOk w hstate
  have hc1 : (cleanup_updates target w.pendingFiles).contains
      w.record.downloadedInstallerFilename = true := by
    rw [hname]; exact contains_cleanup_of_mem _ _ hpresent
  have hmem2 : target ∈ cleanup_updates target w.pendingFiles :=
    List.mem_filter.mpr ⟨hpresent, by simp⟩
  rw [h1, if_pos hc1]
  dsimp only
  have h2 := obtain_readyToInstall_eq url target dOk
    { w with pendingFiles := cleanup_updates target w.pendingFiles } hstate
  have hc2 : (cleanup_updates target (cleanup_updates target w.pendingFiles)).contains
      w.record.downloadedInstallerFilename = true := by
    rw [hname]; exact contains_cleanup_of_mem _ _ hmem2
  rw [h2, if_pos hc2, hname]
  exact ⟨rfl, rfl, rfl⟩

/-- Witness for the amended C5 at the matching world. -/
theorem claim5_witness :
    (obtainInstaller (some (VersionInfo.newVersionDownloadInfo
      "https://example/u" "new.exe")) true worldMatching).1 =
      ObtainResult.ok (pathJoin pendingUpdatesPath "new.exe") ∧
    (obtainInstaller (some (VersionInfo.newVersionDownloadInfo
      "https://example/u" "new.exe")) true
      ((obtainInstaller (some (VersionInfo.newVersionDownloadInfo
        "https://example/u" "new.exe")) true worldMatching).2)).1 =
      ObtainResult.ok (pathJoin pendingUpdatesPath "new.exe") ∧
    ((obtainInstaller (some (VersionInfo.newVersionDownloadInfo
      "https://example/u" "new.exe")) true
      ((obtainInstaller (some (VersionInfo.newVersionDownloadInfo
        "https://example/u" "new.exe")) true worldMatching).2)).2).downloadCount =
      worldMatching.downloadCount :=
  claim5_amended_idempotent_reuse worldMatching "https://example/u" "new.exe" true
    (by decide) (by decide) (by decide)

/-- Claim C6 (confirmed): with persisted state `readyToInstall` and the
referenced artifact absent from the pending-updates directory, the acquirer
reports the missing-file failure and performs no download. -/
theorem claim6_missing_artifact_not_available (w : World) (url target : String)
    (dOk : Bool)
    (hstate : w.record.state = UpdateState.readyToInstall)
    (hmissing : w.record.downloadedInstallerFilename ∉ w.pendingFiles) :
    (obtainInstaller (some (VersionInfo.newVersionDownloadInfo url target)) dOk w).1 =
      ObtainResult.notAvailable FailReason.missingFile ∧
    ((obtainInstaller (some (VersionInfo.newVersionDownloadInfo url target))
        dOk w).2).downloadCount = w.downloadCount := by
  rw [obtain_readyToInstall_eq url target dOk w hstate,
    if_neg (by rw [contains_cleanup_false_of_not_mem w.pendingFiles target
      w.record.downloadedInstallerFilename hmissing]; exact Bool.false_ne_true)]
  exact ⟨rfl, rfl⟩

/-- Witness for C6 at the missing-artifact world. -/
theorem claim6_witness :
    (obtainInstaller (some (VersionInfo.newVersionDownloadInfo
      "https://example/u" "new.exe")) true worldMissing).1 =
      ObtainResult.notAvailable FailReason.missingFile ∧
    ((obtainInstaller (some (VersionInfo.newVersionDownloadInfo
      "https://example/u" "new.exe")) true worldMissing).2).downloadCount =
      worldMissing.downloadCount :=
  claim6_missing_artifact_not_available worldMissing "https://example/u" "new.exe"
    true (by decide) (by decide)

/-- Claim C7 (confirmed): on a Stage-2 invocation of a non-`.msi` artifact
whose launched process does not exit within the 60-second bounded wait or
exits non-zero, Stage 2 reports failure and the run's final persisted state
is `errorDownloading`; a zero exit code within the bound is reported as
success (and persists `upToDate`). -/
theorem claim7_stage2_exe_bounded_wait (o : RunOracle) (now : Nat) (p : String)
    (w : World)
    (hexe : strEndsWith (strToLower p) ".msi" = false)
    (hl : o.stage2LaunchOk = true) :
    ((o.proc.exitTime = none ∨
      (∃ t, o.proc.exitTime = some t ∧ STAGE2_WAIT_MS < t) ∨
      (∃ t, o.proc.exitTime = some t ∧ t ≤ STAGE2_WAIT_MS ∧ o.proc.exitCode ≠ 0)) →
      (InstallNewVersionStage2 o now p w).1 = false ∧
      ((runStage2 o now p w).2).record.state = UpdateState.errorDownloading) ∧
    (((∃ t, o.proc.exitTime = some t ∧ t ≤ STAGE2_WAIT_MS) ∧ o.proc.exitCode = 0) →
      (InstallNewVersionStage2 o now p w).1 = true ∧
      ((runStage2 o now p w).2).record.state = UpdateState.upToDate) := by
  have hEq := stage2_exe_eq o now p w hexe hl
  constructor
  · intro hfail
    have hobs : observedExitCode STAGE2_WAIT_MS o.proc ≠ 0 := by
      unfold observedExitCode
      rcases hfail with h0 | ⟨t, ht, hgt⟩ | ⟨t, ht, hle, hc⟩
      · rw [h0]; exact (by decide : STILL_ACTIVE ≠ (0 : Nat))
      · rw [ht]
        dsimp only
        rw [if_neg (Nat.not_le.mpr hgt)]
        decide
      · rw [ht]
        dsimp only
        rw [if_pos hle]
        exact hc
    have hS2 : InstallNewVersionStage2 o now p w = (false, w) := by
      rw [hEq, if_neg (by simp [hobs])]
    constructor
    · rw [hS2]
    · unfold runStage2
      rw [hS2]
      rfl
  · rintro ⟨⟨t, ht, hle⟩, hc0⟩
    have hobs : observedExitCode STAGE2_WAIT_MS o.proc = 0 := by
      unfold observedExitCode
      rw [ht]
      dsimp only
      rw [if_pos hle]
      exact hc0
    have hS2 : InstallNewVersionStage2 o now p w =
        (true, UpdateState.store (stage2SuccessMutator now) w) := by
      rw [hEq, if_pos (by simp [hobs])]
    constructor
    · rw [hS2]
    · unfold runStage2
      rw [hS2]
      rfl

/-- Witness for C7: a `.exe` artifact whose process never exits within the
wait is a failure and persists `errorDownloading`. -/
theorem claim7_witness :
    (InstallNewVersionStage2 oracleNewVersion 5 "PendingUpdates/update.exe"
      worldFresh).1 = false ∧
    ((runStage2 oracleNewVersion 5 "PendingUpdates/update.exe"
      worldFresh).2).record.state = UpdateState.errorDownloading :=
  (claim7_stage2_exe_bounded_wait oracleNewVersion 5 "PendingUpdates/update.exe"
    worldFresh (by decide) (by decide)).1 (Or.inl (by decide))

/-- Claim C8 (confirmed): `ObtainInstaller` never mutates the persisted
record, for every prior record and every resolver outcome (including
`QueryFailed`, which reports the network failure without a store). -/
theorem claim8_obtain_preserves_record (vi : Option VersionInfo) (dOk : Bool)
    (w : World) :
    ((obtainInstaller vi dOk w).2).record = w.record := by
  cases vi with
  | none => rfl
  | some v =>
    cases v with
    | versionUpToDate => rfl
    | newVersionDownloadInfo url target =>
      simp only [obtainInstaller]
      split
      · split <;> rfl
      · split
        · split <;> rfl
        · rfl

/-- Claim C9 (confirmed): each of the three `UpdateState::store` call sites
of the program (the Stage-1 failure store, the Stage-2 success store, the
Stage-2 failure store) resets the record, writes a fresh timestamp, sets the
state to exactly `upToDate` or `errorDownloading`, clears
`downloadedInstallerFilename`, ignores the previous record, and leaves the
written record satisfying the filename-iff-`readyToInstall` invariant. -/
theorem claim9_store_mutators_terminal (s s' : UpdateState) (now : Nat)
    (b : Bool) :
    (stage1FailMutator now b s = stage1FailMutator now b s' ∧
     ((stage1FailMutator now b s).state = UpdateState.upToDate ∨
      (stage1FailMutator now b s).state = UpdateState.errorDownloading) ∧
     (stage1FailMutator now b s).githubUpdateLastCheckedDate = some now ∧
     (stage1FailMutator now b s).downloadedInstallerFilename = "" ∧
     ((stage1FailMutator now b s).downloadedInstallerFilename ≠ "" ↔
      (stage1FailMutator now b s).state = UpdateState.readyToInstall)) ∧
    (stage2SuccessMutator now s = stage2SuccessMutator now s' ∧
     (stage2SuccessMutator now s).state = UpdateState.upToDate ∧
     (stage2SuccessMutator now s).githubUpdateLastCheckedDate = some now ∧
     (stage2SuccessMutator now s).downloadedInstallerFilename = "" ∧
     ((stage2SuccessMutator now s).downloadedInstallerFilename ≠ "" ↔
      (stage2SuccessMutator now s).state = UpdateState.readyToInstall)) ∧
    (stage2FailMutator now s = stage2FailMutator now s' ∧
     (stage2FailMutator now s).state = UpdateState.errorDownloading ∧
     (stage2FailMutator now s).githubUpdateLastCheckedDate = some now ∧
     (stage2FailMutator now s).downloadedInstallerFilename = "" ∧
     ((stage2FailMutator now s).downloadedInstallerFilename ≠ "" ↔
      (stage2FailMutator now s).state = UpdateState.readyToInstall)) := by
  cases b <;>
    simp [stage1FailMutator, stage2SuccessMutator, stage2FailMutator,
      UpdateState.reset, UpdateState.upToDate, UpdateState.errorDownloading,
      UpdateState.readyToInstall]

/-- Claim C10 (confirmed): the self-relocation always targets the fixed
destination `tempDir/PowerToys.Update.exe` — independent of the current
temp-directory contents, so any two Stage-1 attempts write the same path —
and an existing file at that destination is silently overwritten with the
current binary. -/
theorem claim10_copy_self_fixed_destination (tempDir b1 b2 : String)
    (s1 s2 : List (String × String)) :
    (CopySelfToTempDir tempDir b1 true s1).1 = some (updateDstPath tempDir) ∧
    (CopySelfToTempDir tempDir b2 true s2).1 =
      (CopySelfToTempDir tempDir b1 true s1).1 ∧
    List.lookup (updateDstPath tempDir)
      (CopySelfToTempDir tempDir b1 true
        (setFile s2 (updateDstPath tempDir) b2)).2 = some b1 := by
  refine ⟨rfl, rfl, ?_⟩
  simp [CopySelfToTempDir, setFile, List.lookup]

end PTUpdate
